import Mathlib

/-!
Formal model of the digital-signature module (`digital_signature.py`):
key-store lifecycle, document signing, ledger lookup and verification.

Byte strings are lists of naturals.  The SHA-256 hash and the path
normalization of the operating system are abstract function parameters
(`sha256`, `normpath`); the RSA-PSS primitives are idealised: a signature
value records the signing key, the digest signed and the random PSS salt,
and verification checks the key and the digest.  The mutable object state
(`self.signatures`, the document files, and the three key files) is an
explicit `DSState`; the clock reading and the PSS salt are explicit
arguments of `sign_document`.  File reads that the Python code performs
without a surrounding `try` are modelled in `Except`: an `Except.error`
is an exception escaping the method.
-/

namespace DigitalSignatureModel

/-- Byte strings (document contents, digests) as lists of naturals. -/
abbrev Bytes := List Nat

/-- Idealised RSA-PSS signature value: records the signing key, the digest
that was signed and the random PSS salt, so that distinct salts yield
distinct signature bytes while verification ignores the salt. -/
structure RSASig where
  key : Nat
  digest : Bytes
  salt : Nat
  deriving DecidableEq

/-- Idealised `private_key.sign(document_hash, PSS(MGF1(SHA256), MAX_LENGTH), SHA256)`. -/
def pssSign (privateKey : Nat) (dgst : Bytes) (salt : Nat) : RSASig :=
  { key := privateKey, digest := dgst, salt := salt }

/-- Public key derived from a private key (idealised RSA key pair). -/
def pubOf (privateKey : Nat) : Nat := privateKey

/-- Idealised `public_key.verify(signature, current_hash, PSS(...), SHA256)`:
succeeds exactly when the signature was produced with the matching key over
the same digest, for any salt. -/
def pssVerify (publicKey : Nat) (sig : RSASig) (dgst : Bytes) : Bool :=
  sig.key == publicKey && sig.digest == dgst

/-- One entry of `self.signatures`, with the fields of the dict built in
`sign_document` (the base64 round trip is omitted: digests and signatures
are stored structurally). -/
structure SignatureRecord where
  signature_id : String
  document_path : String
  signer_name : String
  signer_email : String
  signer_tax_code : String
  signature : RSASig
  document_hash : Bytes
  timestamp : String
  algorithm : String
  key_size : Nat
  status : String
  deriving DecidableEq

/-- The `signer_info` dict: `signer_info.get(k, '')` is modelled by
`Option.getD` on these fields. -/
structure SignerInfo where
  name : Option String
  email : Option String
  tax_code : Option String
  deriving DecidableEq

/-- The dict returned by `sign_document`; a field is `none` when the Python
dict does not carry the key on that return path. -/
structure SignResult where
  success : Option Bool
  error : Option String
  signature_id : Option String
  signature : Option RSASig
  timestamp : Option String
  signer : Option String
  message : Option String
  deriving DecidableEq

/-- The dict returned by `verify_signature`; a field is `none` when the
Python dict does not carry the key on that return path. -/
structure VerifyResult where
  valid : Bool
  error : Option String
  integrity : Option String
  signature_id : Option String
  signer : Option String
  timestamp : Option String
  algorithm : Option String
  message : Option String
  deriving DecidableEq

/-- Mutable state of a `DigitalSignature` object: the signature ledger
(`self.signatures`, an insertion-ordered dict modelled as an association
list), the document file system, and the three persisted key files. -/
structure DSState where
  signatures : List (String × SignatureRecord)
  fs : String → Option Bytes
  private_key_file : Option Nat
  public_key_file : Option Nat
  certificate_file : Option Nat

/-- Python dict assignment `d[k] = v` on an insertion-ordered dict: replace
in place when the key is present, append otherwise. -/
def dictInsert (m : List (String × SignatureRecord)) (k : String) (v : SignatureRecord) :
    List (String × SignatureRecord) :=
  match m with
  | [] => [(k, v)]
  | (k', v') :: rest =>
    if k' = k then (k, v) :: rest else (k', v') :: dictInsert rest k v

/-- The lookup loop of `verify_signature`: scan `self.signatures` in stored
order and stop at the first record whose normalized `document_path` equals
the normalized query path. -/
def findByReference (normpath : String → String) (m : List (String × SignatureRecord))
    (normalized : String) : Option SignatureRecord :=
  match m with
  | [] => none
  | (_, sig) :: rest =>
    if normpath sig.document_path = normalized then some sig
    else findByReference normpath rest normalized

/-- The `__init__` path that generates the identity: if the private key file
does not exist, generate a key pair and a self-signed certificate and
persist all three artifacts; otherwise leave the persisted identity
unchanged.  `freshKey` is the randomness of `rsa.generate_private_key`. -/
def ds_init (s : DSState) (freshKey : Nat) : DSState :=
  match s.private_key_file with
  | some _ => s
  | none =>
    { s with
      private_key_file := some freshKey
      public_key_file := some (pubOf freshKey)
      certificate_file := some (pubOf freshKey) }

/-- The `signature_data` dict assembled by `sign_document`: the stored
`SignatureRecord`, with signer fields defaulting to the empty string via
`signer_info.get(k, '')` and the id and timestamp derived from the clock
reading `now`. -/
def signature_record_of (normpath : String → String) (document_path : String)
    (signer_info : SignerInfo) (private_key : Nat) (document_hash : Bytes)
    (salt now : Nat) : SignatureRecord :=
  { signature_id := "SIG-" ++ toString now
    document_path := normpath document_path
    signer_name := signer_info.name.getD ""
    signer_email := signer_info.email.getD ""
    signer_tax_code := signer_info.tax_code.getD ""
    signature := pssSign private_key document_hash salt
    document_hash := document_hash
    timestamp := toString now
    algorithm := "RSA-PSS-SHA256"
    key_size := 2048
    status := "valid" }

/-- Model of `DigitalSignature.sign_document(document_path, signer_info)`.
`salt` is the random PSS salt of this call and `now` the clock reading (in
seconds, the granularity of the `%Y%m%d%H%M%S` format used for the id).
An `Except.error` is an exception escaping the method (the unguarded read
of the private key file). -/
def sign_document (sha256 : Bytes → Bytes) (normpath : String → String)
    (s : DSState) (document_path : String) (signer_info : SignerInfo)
    (salt : Nat) (now : Nat) : Except String SignResult × DSState :=
  match s.fs document_path with
  | none =>
    (Except.ok
      { success := none, error := some "Document not found", signature_id := none,
        signature := none, timestamp := none, signer := none, message := none }, s)
  | some document_data =>
    let document_hash := sha256 document_data
    match s.private_key_file with
    | none => (Except.error "FileNotFoundError: private key file missing", s)
    | some private_key =>
      let signature := pssSign private_key document_hash salt
      let signature_id := "SIG-" ++ toString now
      let signature_data := signature_record_of normpath document_path signer_info
        private_key document_hash salt now
      let s' : DSState := { s with signatures := dictInsert s.signatures signature_id signature_data }
      (Except.ok
        { success := some true, error := none, signature_id := some signature_id,
          signature := some signature, timestamp := some (toString now),
          signer := some (signer_info.name.getD ""),
          message := some "Document signed successfully with Vietnamese digital signature standard" },
       s')

/-- The part of `verify_signature` that runs once a ledger record has been
selected: read the document, recompute the digest, compare with the stored
digest, then check the RSA-PSS signature with the stored public key.  The
document read is outside any `try` in the source, so a missing file is an
escaping exception (`Except.error`); the public-key load and the signature
check are inside the `try`, so their failures yield the structured
`integrity: invalid` dict.  `pssChk` is the RSA-PSS check primitive used. -/
def check_record (sha256 : Bytes → Bytes) (pssChk : Nat → RSASig → Bytes → Bool)
    (s : DSState) (signed_document_path : String) (signature_data : SignatureRecord) :
    Except String VerifyResult × DSState :=
  match s.fs signed_document_path with
  | none => (Except.error "FileNotFoundError: document file missing", s)
  | some document_data =>
    let current_hash := sha256 document_data
    let stored_hash := signature_data.document_hash
    if current_hash ≠ stored_hash then
      (Except.ok
        { valid := false, error := some "Document has been modified after signing",
          integrity := some "compromised", signature_id := none, signer := none,
          timestamp := none, algorithm := none, message := none }, s)
    else
      match s.public_key_file with
      | none =>
        (Except.ok
          { valid := false, error := some "Signature verification failed: public key file missing",
            integrity := some "invalid", signature_id := none, signer := none,
            timestamp := none, algorithm := none, message := none }, s)
      | some public_key =>
        if pssChk public_key signature_data.signature current_hash then
          (Except.ok
            { valid := true, error := none, integrity := some "intact",
              signature_id := some signature_data.signature_id,
              signer := some signature_data.signer_name,
              timestamp := some signature_data.timestamp,
              algorithm := some signature_data.algorithm,
              message := some "Signature is valid and complies with Vietnamese digital signature standards" },
           s)
        else
          (Except.ok
            { valid := false, error := some "Signature verification failed: InvalidSignature",
              integrity := some "invalid", signature_id := none, signer := none,
              timestamp := none, algorithm := none, message := none }, s)

/-- Model of `DigitalSignature.verify_signature(signed_document_path)`:
normalize the query path, scan the ledger for the first matching record,
and hand it to `check_record`; with no match, return the
`No signature found` dict (which carries no `integrity` key). -/
def verify_signature (sha256 : Bytes → Bytes) (pssChk : Nat → RSASig → Bytes → Bool)
    (normpath : String → String) (s : DSState) (signed_document_path : String) :
    Except String VerifyResult × DSState :=
  let normalized_path := normpath signed_document_path
  match findByReference normpath s.signatures normalized_path with
  | none =>
    (Except.ok
      { valid := false, error := some "No signature found for this document",
        integrity := none, signature_id := none, signer := none,
        timestamp := none, algorithm := none, message := none }, s)
  | some signature_data => check_record sha256 pssChk s signed_document_path signature_data

/-- Structured-result predicate: `true` exactly on `Except.ok`, i.e. when no
exception escaped the call. -/
def exceptOk {ε α : Type} (e : Except ε α) : Bool :=
  match e with
  | Except.ok _ => true
  | Except.error _ => false

/-- Membership after a dict assignment: an entry of the updated dict is an
entry of the old dict or the assigned pair. -/
theorem mem_dictInsert {m : List (String × SignatureRecord)} {k : String}
    {v : SignatureRecord} {p : String × SignatureRecord}
    (hp : p ∈ dictInsert m k v) : p ∈ m ∨ p = (k, v) := by
  induction m with
  | nil =>
    simp [dictInsert] at hp
    exact Or.inr hp
  | cons q rest ih =>
    obtain ⟨k', v'⟩ := q
    by_cases hk : k' = k
    · simp [dictInsert, hk] at hp
      rcases hp with h | h
      · exact Or.inr h
      · exact Or.inl (List.mem_cons_of_mem _ h)
    · simp [dictInsert, hk] at hp
      rcases hp with h | h
      · exact Or.inl (by simp [h])
      · rcases ih h with h' | h'
        · exact Or.inl (List.mem_cons_of_mem _ h')
        · exact Or.inr h'

/-- The assigned pair is an entry of the updated dict. -/
theorem self_mem_dictInsert (m : List (String × SignatureRecord)) (k : String)
    (v : SignatureRecord) : (k, v) ∈ dictInsert m k v := by
  induction m with
  | nil => simp [dictInsert]
  | cons q rest ih =>
    obtain ⟨k', v'⟩ := q
    by_cases hk : k' = k
    · simp [dictInsert, hk]
    · simp [dictInsert, hk]
      exact Or.inr ih

/-- Assigning a key that is not yet in the dict appends the pair at the end. -/
theorem dictInsert_of_fresh {m : List (String × SignatureRecord)} {k : String}
    (v : SignatureRecord) (h : k ∉ m.map Prod.fst) : dictInsert m k v = m ++ [(k, v)] := by
  induction m with
  | nil => simp [dictInsert]
  | cons q rest ih =>
    obtain ⟨k', v'⟩ := q
    have hk : ¬k' = k := fun hkk => h (by simp [hkk])
    have hrest : k ∉ rest.map Prod.fst := fun hmem => h (by simp [hmem])
    simp [dictInsert, hk, ih hrest]

/-- A record returned by the lookup loop matches the query and is a stored
record. -/
theorem findByReference_eq_some {normpath : String → String}
    {m : List (String × SignatureRecord)} {n : String} {r : SignatureRecord}
    (h : findByReference normpath m n = some r) :
    normpath r.document_path = n ∧ r ∈ m.map Prod.snd := by
  induction m with
  | nil => simp [findByReference] at h
  | cons q rest ih =>
    obtain ⟨k', v'⟩ := q
    by_cases hm : normpath v'.document_path = n
    · simp [findByReference, hm] at h
      subst h
      exact ⟨hm, by simp⟩
    · simp [findByReference, hm] at h
      rcases ih h with ⟨h1, h2⟩
      exact ⟨h1, by simp [h2]⟩

/-- When a stored record matches the query, the lookup loop returns some
record. -/
theorem findByReference_isSome {normpath : String → String}
    {m : List (String × SignatureRecord)} {n : String} {p : String × SignatureRecord}
    (hp : p ∈ m) (hm : normpath p.2.document_path = n) :
    (findByReference normpath m n).isSome = true := by
  induction m with
  | nil => simp at hp
  | cons q rest ih =>
    obtain ⟨k', v'⟩ := q
    rcases List.mem_cons.mp hp with h | h
    · subst h
      simp [findByReference, hm]
    · by_cases hq : normpath v'.document_path = n
      · simp [findByReference, hq]
      · simp [findByReference, hq]
        exact ih h

/-- When no stored record for the query exists, the first match in the
updated ledger is the assigned record, provided it matches. -/
theorem findByReference_dictInsert_clean {normpath : String → String}
    {m : List (String × SignatureRecord)} {n k : String} {v : SignatureRecord}
    (hclean : ∀ p ∈ m, normpath p.2.document_path ≠ n)
    (hv : normpath v.document_path = n) :
    findByReference normpath (dictInsert m k v) n = some v := by
  have hsome : (findByReference normpath (dictInsert m k v) n).isSome = true :=
    findByReference_isSome (self_mem_dictInsert m k v) hv
  obtain ⟨r, hr⟩ := Option.isSome_iff_exists.mp hsome
  obtain ⟨hmatch, hmem⟩ := findByReference_eq_some hr
  obtain ⟨⟨k0, r0⟩, hp0, hp0eq⟩ := List.mem_map.mp hmem
  rcases mem_dictInsert hp0 with h | h
  · have hr0 : r0 = r := hp0eq
    exact absurd (hr0 ▸ hmatch) (hclean _ h)
  · rw [hr]
    congr 1
    have : r0 = v := congrArg Prod.snd h
    rw [← hp0eq, this]

/-- The prefixed signature id determines the formatted timestamp. -/
theorem sig_id_inj {a b : String} (h : "SIG-" ++ a = "SIG-" ++ b) : a = b := by
  have h2 := congrArg String.data h
  simp [String.data_append] at h2
  exact String.ext h2

/-! Concrete fixtures used by witnesses and counterexamples. -/

/-- Example signer metadata with all fields supplied. -/
def exSigner : SignerInfo :=
  { name := some "Acme", email := some "a@acme.vn", tax_code := some "TX1" }

/-- Example state: empty ledger, a single document file `a` with content
`[2]`, identity present (key `1`). -/
def exState0 : DSState :=
  { signatures := []
    fs := fun p => if p = "a" then some [2] else none
    private_key_file := some 1
    public_key_file := some 1
    certificate_file := some 1 }

/-- Stale ledger record for path `a` whose stored digest `[9]` differs from
the digest of the current file content. -/
def exStale : SignatureRecord :=
  { signature_id := "SIG-1", document_path := "a", signer_name := "Old",
    signer_email := "", signer_tax_code := "", signature := pssSign 1 [9] 0,
    document_hash := [9], timestamp := "1", algorithm := "RSA-PSS-SHA256",
    key_size := 2048, status := "valid" }

/-- Example state whose ledger already holds the stale record for path `a`. -/
def exState1 : DSState :=
  { exState0 with signatures := [("SIG-1", exStale)] }

/-- Example state with a ledger record for path `a` but no readable file. -/
def exStateGone : DSState :=
  { exState0 with signatures := [("SIG-1", exStale)], fs := fun _ => none }

/-- C1 counterexample: with the ledger already holding a stale record for
the same reference, `sign_document` succeeds but the immediately following
`verify_signature` returns the Tampered verdict, not Valid — the claimed
absence of any precondition on pre-existing records fails. -/
theorem c1_counterexample :
    (sign_document (fun d => d) (fun p => p) exState1 "a" exSigner 0 5).1 =
      Except.ok
      { success := some true, error := none, signature_id := some ("SIG-" ++ toString 5),
        signature := some (pssSign 1 [2] 0), timestamp := some (toString 5),
        signer := some "Acme",
        message := some "Document signed successfully with Vietnamese digital signature standard" } ∧
    (verify_signature (fun d => d) pssVerify (fun p => p)
        (sign_document (fun d => d) (fun p => p) exState1 "a" exSigner 0 5).2 "a").1 =
      Except.ok
      { valid := false, error := some "Document has been modified after signing",
        integrity := some "compromised", signature_id := none, signer := none,
        timestamp := none, algorithm := none, message := none } := by
  exact ⟨rfl, rfl⟩

/-- C1 (amended): when the ledger holds no record matching the reference
before the call, a successful `sign_document` is immediately re-verified
as Valid: `verify_signature` on the resulting state returns the
`valid: true` verdict, for any identity metadata. -/
theorem c1_sign_then_verify (sha256 : Bytes → Bytes) (normpath : String → String)
    (s : DSState) (ref : String) (si : SignerInfo) (salt now : Nat) (D : Bytes) (k : Nat)
    (hfs : s.fs ref = some D)
    (hpriv : s.private_key_file = some k)
    (hpub : s.public_key_file = some (pubOf k))
    (hnorm : normpath (normpath ref) = normpath ref)
    (hclean : ∀ p ∈ s.signatures, normpath p.2.document_path ≠ normpath ref) :
    (sign_document sha256 normpath s ref si salt now).1 =
      Except.ok
      { success := some true, error := none, signature_id := some ("SIG-" ++ toString now),
        signature := some (pssSign k (sha256 D) salt), timestamp := some (toString now),
        signer := some (si.name.getD ""),
        message := some "Document signed successfully with Vietnamese digital signature standard" } ∧
    (verify_signature sha256 pssVerify normpath
        (sign_document sha256 normpath s ref si salt now).2 ref).1 =
      Except.ok
      { valid := true, error := none, integrity := some "intact",
        signature_id := some ("SIG-" ++ toString now), signer := some (si.name.getD ""),
        timestamp := some (toString now), algorithm := some "RSA-PSS-SHA256",
        message := some "Signature is valid and complies with Vietnamese digital signature standards" } := by
  have hsig : (sign_document sha256 normpath s ref si salt now).2 =
      { s with signatures := (dictInsert s.signatures ("SIG-" ++ toString now)
          (signature_record_of normpath ref si k (sha256 D) salt now)) } := by
    simp [sign_document, hfs, hpriv]
  constructor
  · simp [sign_document, hfs, hpriv]
  · rw [hsig]
    set rec := signature_record_of normpath ref si k (sha256 D) salt now with hrec
    have hfind : findByReference normpath
        (dictInsert s.signatures ("SIG-" ++ toString now) rec) (normpath ref) = some rec :=
      findByReference_dictInsert_clean hclean (by rw [hrec]; exact hnorm)
    simp only [verify_signature, hfind]
    simp [check_record, hfs, hpub, hrec, signature_record_of, pssVerify, pssSign, pubOf]

/-- C1 witness: signing the file `a` in the clean example state and
immediately verifying it yields the Valid verdict. -/
theorem c1_witness :
    (verify_signature (fun d => d) pssVerify (fun p => p)
        (sign_document (fun d => d) (fun p => p) exState0 "a" exSigner 0 5).2 "a").1 =
      Except.ok
      { valid := true, error := none, integrity := some "intact",
        signature_id := some ("SIG-" ++ toString 5), signer := some "Acme",
        timestamp := some (toString 5), algorithm := some "RSA-PSS-SHA256",
        message := some "Signature is valid and complies with Vietnamese digital signature standards" } :=
  (c1_sign_then_verify (fun d => d) (fun p => p) exState0 "a" exSigner 0 5 [2] 1
    rfl rfl rfl rfl (by intro p hp; exact absurd hp (List.not_mem_nil p))).2

/-- C2: after signing a document D at a reference whose ledger records (if
any) all store the digest of D, mutating the file to any content with a
different digest makes `verify_signature` return the Tampered verdict
(`valid: false`, integrity `compromised`) — and this holds for every
possible RSA check primitive `pssChk`, so the RSA signature check is never
attempted and the verdict is never Valid or Invalid. -/
theorem c2_tamper_detected (sha256 : Bytes → Bytes)
    (pssChk : Nat → RSASig → Bytes → Bool) (normpath : String → String)
    (s : DSState) (ref : String) (si : SignerInfo) (salt now : Nat)
    (D D2 : Bytes) (k : Nat)
    (hfs : s.fs ref = some D)
    (hpriv : s.private_key_file = some k)
    (hnorm : normpath (normpath ref) = normpath ref)
    (hsame : ∀ p ∈ s.signatures, normpath p.2.document_path = normpath ref →
        p.2.document_hash = sha256 D)
    (hneq : sha256 D2 ≠ sha256 D) :
    (verify_signature sha256 pssChk normpath
        { (sign_document sha256 normpath s ref si salt now).2 with
          fs := fun p => if p = ref then some D2
            else ((sign_document sha256 normpath s ref si salt now).2).fs p } ref).1 =
      Except.ok
      { valid := false, error := some "Document has been modified after signing",
        integrity := some "compromised", signature_id := none, signer := none,
        timestamp := none, algorithm := none, message := none } := by
  have hsig : (sign_document sha256 normpath s ref si salt now).2 =
      { s with signatures := (dictInsert s.signatures ("SIG-" ++ toString now)
          (signature_record_of normpath ref si k (sha256 D) salt now)) } := by
    simp [sign_document, hfs, hpriv]
  rw [hsig]
  set rec := signature_record_of normpath ref si k (sha256 D) salt now with hrec
  have hsome : (findByReference normpath
      (dictInsert s.signatures ("SIG-" ++ toString now) rec) (normpath ref)).isSome = true :=
    findByReference_isSome (self_mem_dictInsert s.signatures ("SIG-" ++ toString now) rec)
      (by rw [hrec]; exact hnorm)
  obtain ⟨r, hr⟩ := Option.isSome_iff_exists.mp hsome
  obtain ⟨hrm, hrmem⟩ := findByReference_eq_some hr
  have hrhash : r.document_hash = sha256 D := by
    obtain ⟨⟨k0, r0⟩, hp0, hp0eq⟩ := List.mem_map.mp hrmem
    have hr0 : r0 = r := hp0eq
    subst hr0
    rcases mem_dictInsert hp0 with hold | hnew
    · exact hsame _ hold hrm
    · have hr0rec : r0 = rec := congrArg Prod.snd hnew
      rw [hr0rec, hrec]
      rfl
  simp only [verify_signature, hr]
  simp [check_record, hrhash, hneq]

/-- C2 witness: in the clean example state, signing the file `a` (content
`[2]`) and then verifying after the file is mutated to `[3]` yields the
Tampered verdict whatever RSA check primitive is used. -/
theorem c2_witness :
    (verify_signature (fun d => d) (fun _ _ _ => true) (fun p => p)
        { (sign_document (fun d => d) (fun p => p) exState0 "a" exSigner 0 5).2 with
          fs := fun p => if p = "a" then some [3]
            else ((sign_document (fun d => d) (fun p => p) exState0 "a" exSigner 0 5).2).fs p } "a").1 =
      Except.ok
      { valid := false, error := some "Document has been modified after signing",
        integrity := some "compromised", signature_id := none, signer := none,
        timestamp := none, algorithm := none, message := none } :=
  c2_tamper_detected (fun d => d) (fun _ _ _ => true) (fun p => p) exState0 "a" exSigner 0 5
    [2] [3] 1 rfl rfl rfl
    (by intro p hp; exact absurd hp (List.not_mem_nil p)) (by decide)

/-- A sign call whose generated id is not yet a ledger key appends exactly
one record at the end of the ledger. -/
theorem sign_document_append (sha256 : Bytes → Bytes) (normpath : String → String)
    (s : DSState) (ref : String) (si : SignerInfo) (salt now : Nat) (D : Bytes) (k : Nat)
    (hfs : s.fs ref = some D) (hpriv : s.private_key_file = some k)
    (hfresh : ("SIG-" ++ toString now) ∉ s.signatures.map Prod.fst) :
    (sign_document sha256 normpath s ref si salt now).2 =
      { s with signatures := (s.signatures ++
          [("SIG-" ++ toString now, signature_record_of normpath ref si k (sha256 D) salt now)]) } := by
  simp [sign_document, hfs, hpriv, dictInsert_of_fresh _ hfresh]

/-- C3 counterexample: two successful sign calls within the same clock
second (`now = 5`) generate the same id `SIG-5`; the second call overwrites
the record created by the first (the final ledger holds exactly one record,
the second call's, with salt 1), so the ids are not distinct and the ledger
does not grow on the second call. -/
theorem c3_counterexample :
    (sign_document (fun d => d) (fun p => p) exState0 "a" exSigner 0 5).1 =
      Except.ok
      { success := some true, error := none, signature_id := some ("SIG-" ++ toString 5),
        signature := some (pssSign 1 [2] 0), timestamp := some (toString 5),
        signer := some "Acme",
        message := some "Document signed successfully with Vietnamese digital signature standard" } ∧
    (sign_document (fun d => d) (fun p => p)
        (sign_document (fun d => d) (fun p => p) exState0 "a" exSigner 0 5).2
        "a" exSigner 1 5).1 =
      Except.ok
      { success := some true, error := none, signature_id := some ("SIG-" ++ toString 5),
        signature := some (pssSign 1 [2] 1), timestamp := some (toString 5),
        signer := some "Acme",
        message := some "Document signed successfully with Vietnamese digital signature standard" } ∧
    ((sign_document (fun d => d) (fun p => p)
        (sign_document (fun d => d) (fun p => p) exState0 "a" exSigner 0 5).2
        "a" exSigner 1 5).2).signatures =
      [("SIG-" ++ toString 5, signature_record_of (fun p => p) "a" exSigner 1 [2] 1 5)] := by
  exact ⟨rfl, rfl, rfl⟩

/-- C3 (amended): provided the two sign calls occur at clock seconds whose
formatted values differ and neither generated id is already a ledger key,
the two record ids are distinct, each call appends exactly one record at
the end of the ledger, and the second call leaves the record created by the
first in place unchanged. -/
theorem c3_fresh_ids_append (sha256 : Bytes → Bytes) (normpath : String → String)
    (s : DSState) (ref1 ref2 : String) (si1 si2 : SignerInfo)
    (salt1 salt2 now1 now2 : Nat) (D1 D2 : Bytes) (k : Nat)
    (hfs1 : s.fs ref1 = some D1) (hfs2 : s.fs ref2 = some D2)
    (hpriv : s.private_key_file = some k)
    (htime : toString now1 ≠ toString now2)
    (hfresh1 : ("SIG-" ++ toString now1) ∉ s.signatures.map Prod.fst)
    (hfresh2 : ("SIG-" ++ toString now2) ∉ s.signatures.map Prod.fst) :
    "SIG-" ++ toString now1 ≠ "SIG-" ++ toString now2 ∧
    ((sign_document sha256 normpath s ref1 si1 salt1 now1).2).signatures =
      s.signatures ++
        [("SIG-" ++ toString now1, signature_record_of normpath ref1 si1 k (sha256 D1) salt1 now1)] ∧
    ((sign_document sha256 normpath
        (sign_document sha256 normpath s ref1 si1 salt1 now1).2 ref2 si2 salt2 now2).2).signatures =
      s.signatures ++
        [("SIG-" ++ toString now1, signature_record_of normpath ref1 si1 k (sha256 D1) salt1 now1),
         ("SIG-" ++ toString now2, signature_record_of normpath ref2 si2 k (sha256 D2) salt2 now2)] := by
  have hid : "SIG-" ++ toString now1 ≠ "SIG-" ++ toString now2 :=
    fun h => htime (sig_id_inj h)
  have h1 := sign_document_append sha256 normpath s ref1 si1 salt1 now1 D1 k hfs1 hpriv hfresh1
  refine ⟨hid, ?_, ?_⟩
  · rw [h1]
  · rw [h1]
    have hfresh2' : ("SIG-" ++ toString now2) ∉
        ((s.signatures ++
          [("SIG-" ++ toString now1,
            signature_record_of normpath ref1 si1 k (sha256 D1) salt1 now1)]).map Prod.fst) := by
      rw [List.map_append]
      simp only [List.mem_append]
      rintro (h | h)
      · exact hfresh2 h
      · simp only [List.map_cons, List.map_nil, List.mem_singleton] at h
        exact hid h.symm
    have h2 := sign_document_append sha256 normpath
      { s with signatures := (s.signatures ++
          [("SIG-" ++ toString now1,
            signature_record_of normpath ref1 si1 k (sha256 D1) salt1 now1)]) }
      ref2 si2 salt2 now2 D2 k hfs2 hpriv hfresh2'
    rw [h2]
    simp

/-- C3 witness: signing the file `a` at seconds 5 and 6 from the clean
example state appends the two records in order. -/
theorem c3_witness :
    ((sign_document (fun d => d) (fun p => p)
        (sign_document (fun d => d) (fun p => p) exState0 "a" exSigner 0 5).2
        "a" exSigner 1 6).2).signatures =
      exState0.signatures ++
        [("SIG-" ++ toString 5, signature_record_of (fun p => p) "a" exSigner 1 [2] 0 5),
         ("SIG-" ++ toString 6, signature_record_of (fun p => p) "a" exSigner 1 [2] 1 6)] :=
  (c3_fresh_ids_append (fun d => d) (fun p => p) exState0 "a" "a" exSigner exSigner 0 1 5 6
    [2] [2] 1 rfl rfl rfl (by decide) (by simp [exState0]) (by simp [exState0])).2.2

/-- First-match characterization of the lookup loop: a returned record sits
at some index, matches the query, and no earlier stored record matches. -/
theorem findByReference_first_index {normpath : String → String}
    {m : List (String × SignatureRecord)} {n : String} {r : SignatureRecord}
    (h : findByReference normpath m n = some r) :
    ∃ i, ∃ hi : i < m.length,
      (m.get ⟨i, hi⟩).2 = r ∧ normpath r.document_path = n ∧
      ∀ j (hj : j < m.length), j < i → normpath (m.get ⟨j, hj⟩).2.document_path ≠ n := by
  induction m with
  | nil => simp [findByReference] at h
  | cons q rest ih =>
    obtain ⟨k', v'⟩ := q
    by_cases hm : normpath v'.document_path = n
    · simp [findByReference, hm] at h
      subst h
      exact ⟨0, by simp, rfl, hm, fun j hj hj0 => absurd hj0 (Nat.not_lt_zero j)⟩
    · simp [findByReference, hm] at h
      obtain ⟨i, hi, hget, hmatch, hfirst⟩ := ih h
      refine ⟨i + 1, by simpa using Nat.succ_lt_succ hi, ?_, hmatch, ?_⟩
      · simpa using hget
      · intro j hj hji
        cases j with
        | zero => simpa using hm
        | succ j' =>
          have hj' : j' < rest.length := by simpa using hj
          have hne := hfirst j' hj' (Nat.lt_of_succ_lt_succ hji)
          simpa using hne

/-- C4: the ledger lookup of `verify_signature` is a linear scan in stored
order: a selected record is the first stored record whose normalized
`document_path` equals the normalized query (no earlier record matches),
and the verdict is computed from exactly that record — later matching
records are never chosen. -/
theorem c4_first_match (sha256 : Bytes → Bytes) (pssChk : Nat → RSASig → Bytes → Bool)
    (normpath : String → String) (s : DSState) (ref : String) (r : SignatureRecord)
    (h : findByReference normpath s.signatures (normpath ref) = some r) :
    verify_signature sha256 pssChk normpath s ref = check_record sha256 pssChk s ref r ∧
    ∃ i, ∃ hi : i < s.signatures.length,
      (s.signatures.get ⟨i, hi⟩).2 = r ∧ normpath r.document_path = normpath ref ∧
      ∀ j (hj : j < s.signatures.length), j < i →
        normpath (s.signatures.get ⟨j, hj⟩).2.document_path ≠ normpath ref := by
  constructor
  · simp [verify_signature, h]
  · exact findByReference_first_index h

/-- A second, fresher ledger record for path `a` whose stored digest `[2]`
matches the current file content of the example states. -/
def exSecond : SignatureRecord :=
  { exStale with
    signature_id := "SIG-2"
    signer_name := "New"
    signature := pssSign 1 [2] 3
    document_hash := [2] }

/-- Example state whose ledger holds two records for path `a`: the stale one
first, the fresher matching one second. -/
def exState2 : DSState :=
  { exState0 with signatures := [("SIG-1", exStale), ("SIG-2", exSecond)] }

/-- C4 witness: with two stored records for path `a`, verification is the
check of the first stored record (the stale one), not the later one. -/
theorem c4_witness :
    verify_signature (fun d => d) pssVerify (fun p => p) exState2 "a" =
      check_record (fun d => d) pssVerify exState2 "a" exStale :=
  (c4_first_match (fun d => d) pssVerify (fun p => p) exState2 "a" exStale rfl).1

/-- C5 counterexample: verifying a path with no ledger record returns the
`valid: false` dict whose `integrity` field is absent (`none`) rather than
present with value `unknown`. -/
theorem c5_counterexample :
    (verify_signature (fun d => d) pssVerify (fun p => p) exState0 "missing").1 =
      Except.ok
      { valid := false, error := some "No signature found for this document",
        integrity := none, signature_id := none, signer := none,
        timestamp := none, algorithm := none, message := none } := by
  exact rfl

/-- C5 (amended): for every path with no matching ledger record,
`verify_signature` returns the `valid: false` NotFound dict carrying only a
reason and no `integrity` field. -/
theorem c5_not_found (sha256 : Bytes → Bytes) (pssChk : Nat → RSASig → Bytes → Bool)
    (normpath : String → String) (s : DSState) (ref : String)
    (h : findByReference normpath s.signatures (normpath ref) = none) :
    (verify_signature sha256 pssChk normpath s ref).1 =
      Except.ok
      { valid := false, error := some "No signature found for this document",
        integrity := none, signature_id := none, signer := none,
        timestamp := none, algorithm := none, message := none } := by
  simp [verify_signature, h]

/-- C5 witness: the NotFound dict on the empty example ledger. -/
theorem c5_witness :
    (verify_signature (fun d => d) pssVerify (fun p => p) exState0 "b").1 =
      Except.ok
      { valid := false, error := some "No signature found for this document",
        integrity := none, signature_id := none, signer := none,
        timestamp := none, algorithm := none, message := none } :=
  c5_not_found (fun d => d) pssVerify (fun p => p) exState0 "b" rfl

/-- C6 counterexample: when a matching ledger record exists but the document
file cannot be read, `verify_signature` lets the file-open exception escape
(an `Except.error`, not a structured verdict). -/
theorem c6_counterexample :
    (verify_signature (fun d => d) pssVerify (fun p => p) exStateGone "a").1 =
      Except.error "FileNotFoundError: document file missing" := by
  exact rfl

/-- C6 (amended): with the private key file present, `sign_document` always
returns a structured result, and that result is the DocumentNotFound error
dict exactly when the referenced document cannot be read; `verify_signature`
returns a structured verdict whenever no record matches or the document
file is readable — but not when a matching record exists and the file is
unreadable, where the exception propagates. -/
theorem c6_totality (sha256 : Bytes → Bytes) (pssChk : Nat → RSASig → Bytes → Bool)
    (normpath : String → String) (s : DSState) (path : String) (si : SignerInfo)
    (salt now k : Nat) (hpriv : s.private_key_file = some k) :
    exceptOk (sign_document sha256 normpath s path si salt now).1 = true ∧
    ((sign_document sha256 normpath s path si salt now).1 =
        Except.ok
        { success := none, error := some "Document not found", signature_id := none,
          signature := none, timestamp := none, signer := none, message := none } ↔
      s.fs path = none) ∧
    (findByReference normpath s.signatures (normpath path) = none ∨ (s.fs path).isSome = true →
      exceptOk (verify_signature sha256 pssChk normpath s path).1 = true) := by
  refine ⟨?_, ?_, ?_⟩
  · rcases hfs : s.fs path with _ | D
    · simp [sign_document, hfs, exceptOk]
    · simp [sign_document, hfs, hpriv, exceptOk]
  · rcases hfs : s.fs path with _ | D
    · simp [sign_document, hfs]
    · simp [sign_document, hfs, hpriv]
  · intro hcase
    rcases hf : findByReference normpath s.signatures (normpath path) with _ | r
    · simp [verify_signature, hf, exceptOk]
    · rcases hfs : s.fs path with _ | D
      · rcases hcase with hc | hc
        · exact absurd hf (hc ▸ by simp)
        · rw [hfs] at hc
          simp at hc
      · simp only [verify_signature, hf, check_record, hfs]
        split
        · simp [exceptOk]
        · rcases hpub : s.public_key_file with _ | pk
          · simp [hpub, exceptOk]
          · simp only [hpub]
            split <;> simp [exceptOk]

/-- C6 witness: in the clean example state the sign call on the present file
`a` and on the missing file `b` both return structured results, and
verification of the recordless path `b` returns a structured verdict. -/
theorem c6_witness :
    exceptOk (sign_document (fun d => d) (fun p => p) exState0 "b" exSigner 0 5).1 = true ∧
    ((sign_document (fun d => d) (fun p => p) exState0 "b" exSigner 0 5).1 =
        Except.ok
        { success := none, error := some "Document not found", signature_id := none,
          signature := none, timestamp := none, signer := none, message := none } ↔
      exState0.fs "b" = none) ∧
    exceptOk (verify_signature (fun d => d) pssVerify (fun p => p) exState0 "b").1 = true := by
  have h := c6_totality (fun d => d) pssVerify (fun p => p) exState0 "b" exSigner 0 5 1 rfl
  exact ⟨h.1, h.2.1, h.2.2 (Or.inl rfl)⟩

/-- C7: verification is read-only with respect to durable state — it
returns the input state unchanged, ledger included — and every record that
signing adds to the ledger carries status `valid` from creation. -/
theorem c7_verify_readonly (sha256 : Bytes → Bytes) (pssChk : Nat → RSASig → Bytes → Bool)
    (normpath : String → String) (s : DSState) (path docPath : String)
    (si : SignerInfo) (salt now : Nat) :
    (verify_signature sha256 pssChk normpath s path).2 = s ∧
    (∀ p, p ∈ ((sign_document sha256 normpath s docPath si salt now).2).signatures →
      p ∈ s.signatures ∨ p.2.status = "valid") := by
  constructor
  · rcases hf : findByReference normpath s.signatures (normpath path) with _ | r
    · simp [verify_signature, hf]
    · simp only [verify_signature, hf]
      rcases hfs : s.fs path with _ | D
      · simp [check_record, hfs]
      · simp only [check_record, hfs]
        split
        · rfl
        · rcases hpub : s.public_key_file with _ | pk
          · simp [hpub]
          · simp only [hpub]
            split <;> rfl
  · intro p hp
    rcases hfs : s.fs docPath with _ | D
    · simp only [sign_document, hfs] at hp
      exact Or.inl hp
    · rcases hpriv : s.private_key_file with _ | k
      · simp only [sign_document, hfs, hpriv] at hp
        exact Or.inl hp
      · simp only [sign_document, hfs, hpriv] at hp
        rcases mem_dictInsert hp with h | h
        · exact Or.inl h
        · right
          rw [h]
          rfl

/-- C7 witness: verifying path `a` in the two-record example state leaves
the state, its ledger included, unchanged. -/
theorem c7_witness :
    (verify_signature (fun d => d) pssVerify (fun p => p) exState2 "a").2 = exState2 :=
  (c7_verify_readonly (fun d => d) pssVerify (fun p => p) exState2 "a" "a" exSigner 0 5).1

/-- Example state with no persisted identity (no key files). -/
def exStateNoKeys : DSState :=
  { exState0 with
    private_key_file := none
    public_key_file := none
    certificate_file := none }

/-- C8: initialization generates and persists a key pair and certificate
exactly when no persisted private key exists, loads a persisted identity
unchanged, and is stable: a second initialization over the persisted files
is the identity and yields the same public key bytes. -/
theorem c8_keystore_stable (s : DSState) (f1 f2 : Nat) :
    (s.private_key_file = none →
      ds_init s f1 =
        { s with
          private_key_file := some f1
          public_key_file := some (pubOf f1)
          certificate_file := some (pubOf f1) }) ∧
    (∀ k, s.private_key_file = some k → ds_init s f1 = s) ∧
    ds_init (ds_init s f1) f2 = ds_init s f1 ∧
    (ds_init (ds_init s f1) f2).public_key_file = (ds_init s f1).public_key_file := by
  have h3 : ds_init (ds_init s f1) f2 = ds_init s f1 := by
    rcases h : s.private_key_file with _ | k
    · simp [ds_init, h]
    · simp [ds_init, h]
  exact ⟨fun h => by simp [ds_init, h], fun k h => by simp [ds_init, h], h3,
    congrArg DSState.public_key_file h3⟩

/-- C8 witness: initializing twice from the keyless example state writes the
identity once and the second initialization changes nothing. -/
theorem c8_witness :
    ds_init (ds_init exStateNoKeys 7) 8 = ds_init exStateNoKeys 7 :=
  (c8_keystore_stable exStateNoKeys 7 8).2.2.1

/-- C9: signing is non-deterministic in its signature bytes — for the same
document and the same identity, two sign runs with distinct PSS salts both
succeed, their signature values differ, and each signature independently
passes the RSA-PSS check against the same digest. -/
theorem c9_salt_nondeterminism (sha256 : Bytes → Bytes) (normpath : String → String)
    (s : DSState) (ref : String) (si : SignerInfo) (salt1 salt2 now1 now2 : Nat)
    (D : Bytes) (k : Nat)
    (hfs : s.fs ref = some D) (hpriv : s.private_key_file = some k)
    (hsalt : salt1 ≠ salt2) :
    (sign_document sha256 normpath s ref si salt1 now1).1 =
      Except.ok
      { success := some true, error := none, signature_id := some ("SIG-" ++ toString now1),
        signature := some (pssSign k (sha256 D) salt1), timestamp := some (toString now1),
        signer := some (si.name.getD ""),
        message := some "Document signed successfully with Vietnamese digital signature standard" } ∧
    (sign_document sha256 normpath s ref si salt2 now2).1 =
      Except.ok
      { success := some true, error := none, signature_id := some ("SIG-" ++ toString now2),
        signature := some (pssSign k (sha256 D) salt2), timestamp := some (toString now2),
        signer := some (si.name.getD ""),
        message := some "Document signed successfully with Vietnamese digital signature standard" } ∧
    pssSign k (sha256 D) salt1 ≠ pssSign k (sha256 D) salt2 ∧
    pssVerify (pubOf k) (pssSign k (sha256 D) salt1) (sha256 D) = true ∧
    pssVerify (pubOf k) (pssSign k (sha256 D) salt2) (sha256 D) = true := by
  refine ⟨by simp [sign_document, hfs, hpriv], by simp [sign_document, hfs, hpriv], ?_, ?_, ?_⟩
  · intro h
    exact hsalt (congrArg RSASig.salt h)
  · simp [pssVerify, pssSign, pubOf]
  · simp [pssVerify, pssSign, pubOf]

/-- C9 witness: two concrete signatures over digest `[2]` with salts 0 and 1
differ while both pass the RSA-PSS check. -/
theorem c9_witness :
    pssSign 1 [2] 0 ≠ pssSign 1 [2] 1 ∧
    pssVerify (pubOf 1) (pssSign 1 [2] 0) [2] = true ∧
    pssVerify (pubOf 1) (pssSign 1 [2] 1) [2] = true := by
  have h := c9_salt_nondeterminism (fun d => d) (fun p => p) exState0 "a" exSigner 0 1 5 6
    [2] 1 rfl rfl (by decide)
  exact ⟨h.2.2.1, h.2.2.2.1, h.2.2.2.2⟩

/-- C10: signer metadata is accepted without validation and missing fields
default to the empty string — a sign call whose `signer_info` lacks the
name, email and tax_code keys succeeds, stores `""` in the corresponding
record fields, and reports `signer = ""` in the success dict. -/
theorem c10_default_empty_signer (sha256 : Bytes → Bytes) (normpath : String → String)
    (s : DSState) (ref : String) (si : SignerInfo) (salt now : Nat) (D : Bytes) (k : Nat)
    (hfs : s.fs ref = some D) (hpriv : s.private_key_file = some k)
    (hname : si.name = none) (hemail : si.email = none) (htax : si.tax_code = none) :
    (sign_document sha256 normpath s ref si salt now).1 =
      Except.ok
      { success := some true, error := none, signature_id := some ("SIG-" ++ toString now),
        signature := some (pssSign k (sha256 D) salt), timestamp := some (toString now),
        signer := some "",
        message := some "Document signed successfully with Vietnamese digital signature standard" } ∧
    (signature_record_of normpath ref si k (sha256 D) salt now).signer_name = "" ∧
    (signature_record_of normpath ref si k (sha256 D) salt now).signer_email = "" ∧
    (signature_record_of normpath ref si k (sha256 D) salt now).signer_tax_code = "" ∧
    ((sign_document sha256 normpath s ref si salt now).2).signatures =
      dictInsert s.signatures ("SIG-" ++ toString now)
        (signature_record_of normpath ref si k (sha256 D) salt now) := by
  refine ⟨by simp [sign_document, hfs, hpriv, hname], by simp [signature_record_of, hname],
    by simp [signature_record_of, hemail], by simp [signature_record_of, htax],
    by simp [sign_document, hfs, hpriv]⟩

/-- C10 witness: signing file `a` with empty signer metadata succeeds and
stores empty signer fields. -/
theorem c10_witness :
    (sign_document (fun d => d) (fun p => p) exState0 "a"
        { name := none, email := none, tax_code := none } 0 5).1 =
      Except.ok
      { success := some true, error := none, signature_id := some ("SIG-" ++ toString 5),
        signature := some (pssSign 1 [2] 0), timestamp := some (toString 5),
        signer := some "",
        message := some "Document signed successfully with Vietnamese digital signature standard" } :=
  (c10_default_empty_signer (fun d => d) (fun p => p) exState0 "a"
    { name := none, email := none, tax_code := none } 0 5 [2] 1 rfl rfl rfl rfl rfl).1

end DigitalSignatureModel
